import Mathlib

set_option linter.unusedVariables false

/-!
Verification of the CouncilWebApp client-side JavaScript interop layer:
a shallow embedding of the service worker (src/service-worker.js) and of
the Leaflet map wrapper modules, with theorems settling the behavioural
claims about them.  JS strings stay strings, JS numbers are modelled as
rationals (the wrappers only store and forward them), a rejected promise
or thrown error is modelled as `none` / an explicit error value, and the
Cache Storage API is modelled as named association lists keyed by request
URL.
-/

namespace CouncilApp

/-- JS `String.prototype.startsWith`, computed structurally on the
character list so that concrete instances evaluate by `decide`. -/
def strStartsWith (s pre : String) : Bool :=
  pre.toList.isPrefixOf s.toList

/-- JS `String.prototype.endsWith`, computed structurally. -/
def strEndsWith (s suffix : String) : Bool :=
  suffix.toList.isSuffixOf s.toList

/-- JS `String.prototype.includes`: some position of `s` starts the
substring `sub`. -/
def strIncludes (s sub : String) : Bool :=
  (List.range (s.toList.length + 1)).any fun i => sub.toList.isPrefixOf (s.toList.drop i)

namespace ServiceWorker

/-- Cache namespace populated at install (src/service-worker.js line 4). -/
def CACHE_NAME : String := "council-app-v1.0.0"

/-- Runtime cache namespace (line 5). -/
def RUNTIME_CACHE : String := "council-app-runtime"

/-- Offline fallback document URL (line 6). -/
def OFFLINE_URL : String := "/offline.html"

/-- The five strategy names of the CACHE_STRATEGIES object. -/
def CACHE_FIRST : String := "cache-first"

def NETWORK_FIRST : String := "network-first"

def STALE_WHILE_REVALIDATE : String := "stale-while-revalidate"

def NETWORK_ONLY : String := "network-only"

def CACHE_ONLY : String := "cache-only"

/-- The extensions of the static-asset regular expression
`\.(css|js|png|jpg|jpeg|gif|svg|woff|woff2|ttf|eot)$` in
`getCachingStrategy`. -/
def staticAssetExtensions : List String :=
  ["css", "js", "png", "jpg", "jpeg", "gif", "svg", "woff", "woff2", "ttf", "eot"]

/-- `pathname.match(/\.(ext1|...|extN)$/)` is truthy exactly when the path
ends in a dot followed by one of the extensions. -/
def isStaticAssetPath (pathname : String) : Bool :=
  staticAssetExtensions.any (fun ext => strEndsWith pathname ("." ++ ext))

/-- `getCachingStrategy` (lines 220-251), as a function of the request URL
pathname: the cascade of `if` tests of the source, in source order. -/
def getCachingStrategy (pathname : String) : String :=
  if isStaticAssetPath pathname then CACHE_FIRST
  else if strStartsWith pathname "/_framework/" then CACHE_FIRST
  else if strStartsWith pathname "/_content/" then CACHE_FIRST
  else if strStartsWith pathname "/api/" then NETWORK_FIRST
  else if strEndsWith pathname "/" || strEndsWith pathname ".html" then NETWORK_FIRST
  else NETWORK_FIRST

theorem getCachingStrategy_eq_ite (p : String) :
    getCachingStrategy p =
      if isStaticAssetPath p || strStartsWith p "/_framework/" || strStartsWith p "/_content/"
      then CACHE_FIRST else NETWORK_FIRST := by
  unfold getCachingStrategy
  cases h1 : isStaticAssetPath p <;>
    cases h2 : strStartsWith p "/_framework/" <;>
      cases h3 : strStartsWith p "/_content/" <;>
        simp [h1, h2, h3]

/-- C1: on same-origin HTTP requests the selector returns cache-first
exactly for static-asset extensions and the `/_framework/` and `/_content/`
path prefixes, network-first for every other path (including `/api/`,
paths ending in a slash or in `.html`, and the default case), first match
winning, and it never returns any of the other three strategies. -/
theorem getCachingStrategy_correct (p : String) :
    (isStaticAssetPath p = true ∨ strStartsWith p "/_framework/" = true ∨
        strStartsWith p "/_content/" = true → getCachingStrategy p = CACHE_FIRST) ∧
    (isStaticAssetPath p = false ∧ strStartsWith p "/_framework/" = false ∧
        strStartsWith p "/_content/" = false → getCachingStrategy p = NETWORK_FIRST) ∧
    (getCachingStrategy p ≠ STALE_WHILE_REVALIDATE ∧
      getCachingStrategy p ≠ NETWORK_ONLY ∧ getCachingStrategy p ≠ CACHE_ONLY) := by
  rw [getCachingStrategy_eq_ite]
  refine ⟨?_, ?_, ?_⟩
  · rintro (h | h | h) <;> simp [h]
  · rintro ⟨h1, h2, h3⟩; simp [h1, h2, h3]
  · split <;> simp [CACHE_FIRST, NETWORK_FIRST, STALE_WHILE_REVALIDATE, NETWORK_ONLY, CACHE_ONLY]

/-- Witness for C1 at concrete paths. -/
theorem getCachingStrategy_correct_witness :
    getCachingStrategy "/css/app.css" = CACHE_FIRST ∧
      getCachingStrategy "/api/data" = NETWORK_FIRST :=
  ⟨(getCachingStrategy_correct "/css/app.css").1 (Or.inl (by decide)),
   (getCachingStrategy_correct "/api/data").2.1 (by refine ⟨by decide, by decide, by decide⟩)⟩

/-- An HTTP response as the executors observe it: status, status text and
body.  `Response.clone()` is modelled as the identity (the model has no
consumable body stream). -/
structure Response where
  status : Nat
  statusText : String
  body : String
deriving DecidableEq, Repr

/-- The synthetic response `new Response('Offline', { status: 503,
statusText: 'Service Unavailable' })` built on the failure paths. -/
def syntheticOffline : Response :=
  { status := 503, statusText := "Service Unavailable", body := "Offline" }

/-- A request as the service worker observes it: the absolute URL string
(`request.url`), the pathname component of that URL, the HTTP method and
the request mode (`"navigate"` for top-level document loads). -/
structure Request where
  url : String
  pathname : String
  method : String
  mode : String
deriving DecidableEq, Repr

/-- One named cache: a list of request/response snapshot pairs, matched by
request URL as the Cache API does for these callers. -/
abbrev Cache : Type := List (Request × Response)

/-- The whole Cache Storage: named caches in creation order. -/
abbrev CacheStore : Type := List (String × Cache)

/-- The network, and promise rejection: `fetch` either resolves with a
response (`some`) or rejects / throws (`none`). -/
abbrev Net : Type := Request → Option Response

/-- `cache.match(request)` within one cache, keyed by URL. -/
def cacheMatchUrl (c : Cache) (url : String) : Option Response :=
  (c.find? fun e => e.fst.url == url).map Prod.snd

/-- `caches.match(request)`: first match across all caches in order. -/
def cachesMatch : CacheStore → String → Option Response
  | [], _ => none
  | (_, c) :: rest, url =>
    match cacheMatchUrl c url with
    | some r => some r
    | none => cachesMatch rest url

/-- `cache.put(request, response)`: replace any entry with the same URL
key and append the new snapshot. -/
def cachePutEntry (c : Cache) (req : Request) (r : Response) : Cache :=
  (c.filter fun e => !(e.fst.url == req.url)) ++ [(req, r)]

/-- `caches.open(name)` followed by `cache.put(request, response)`:
stores the snapshot in the cache of that name, creating the cache when it
is absent (cache names are unique keys in Cache Storage). -/
def cachesOpenPut : CacheStore → String → Request → Response → CacheStore
  | [], cname, req, r => [(cname, cachePutEntry [] req r)]
  | (n, c) :: rest, cname, req, r =>
    if n == cname then (n, cachePutEntry c req r) :: rest
    else (n, c) :: cachesOpenPut rest cname req r

/-- The cache registered under a name, when present. -/
def lookupCache (st : CacheStore) (cname : String) : Option Cache :=
  (st.find? fun e => e.fst == cname).map Prod.snd

/-- The contents of the named cache in a store (empty when absent). -/
def namedCache (st : CacheStore) (cname : String) : Cache :=
  (lookupCache st cname).getD []

/-- Result of running one strategy executor: the response handed to
`event.respondWith`, the cache store afterwards, and the list of network
fetches that were issued. -/
structure Outcome where
  response : Response
  store : CacheStore
  fetched : List Request
deriving DecidableEq

/-- `cacheFirst` (lines 254-271): serve from cache when present; else
fetch, store a clone in the runtime cache on status 200, and return the
network response; on a rejected fetch return the synthetic 503. -/
def cacheFirst (net : Net) (st : CacheStore) (req : Request) : Outcome :=
  match cachesMatch st req.url with
  | some cachedResponse => { response := cachedResponse, store := st, fetched := [] }
  | none =>
    match net req with
    | some networkResponse =>
      { response := networkResponse
        store :=
          if networkResponse.status == 200 then cachesOpenPut st RUNTIME_CACHE req networkResponse
          else st
        fetched := [req] }
    | none => { response := syntheticOffline, store := st, fetched := [req] }

/-- `networkFirst` (lines 274-300): fetch; on resolution store a clone in
the runtime cache when the status is 200 and return the response; on
rejection fall back to the cached entry, then (navigation requests only)
to the cached offline page, then to the synthetic 503. -/
def networkFirst (net : Net) (st : CacheStore) (req : Request) : Outcome :=
  match net req with
  | some networkResponse =>
    { response := networkResponse
      store :=
        if networkResponse.status == 200 then cachesOpenPut st RUNTIME_CACHE req networkResponse
        else st
      fetched := [req] }
  | none =>
    match cachesMatch st req.url with
    | some cachedResponse => { response := cachedResponse, store := st, fetched := [req] }
    | none =>
      if req.mode == "navigate" then
        match cachesMatch st OFFLINE_URL with
        | some offlineResponse => { response := offlineResponse, store := st, fetched := [req] }
        | none => { response := syntheticOffline, store := st, fetched := [req] }
      else { response := syntheticOffline, store := st, fetched := [req] }

/-- Result of `staleWhileRevalidate`: the value of
`cachedResponse || fetchPromise`, which the caller may observe as no
response at all (`none`) when both the cache lookup and the fetch fail. -/
structure SwrOutcome where
  response : Option Response
  store : CacheStore
  fetched : List Request
deriving DecidableEq

/-- `staleWhileRevalidate` (lines 303-315): capture the cache lookup,
always issue the fetch (which updates the runtime cache on status 200 and
falls back to the captured lookup on rejection), and return the cached
entry when present, else the fetch outcome. -/
def staleWhileRevalidate (net : Net) (st : CacheStore) (req : Request) : SwrOutcome :=
  let cachedResponse := cachesMatch st req.url
  match net req with
  | some networkResponse =>
    { response :=
        match cachedResponse with
        | some c => some c
        | none => some networkResponse
      store :=
        if networkResponse.status == 200 then cachesOpenPut st RUNTIME_CACHE req networkResponse
        else st
      fetched := [req] }
  | none => { response := cachedResponse, store := st, fetched := [req] }

/-- The activate listener (lines 45-64): delete every cache whose name is
neither `CACHE_NAME` nor `RUNTIME_CACHE`. -/
def activateCleanup (st : CacheStore) : CacheStore :=
  st.filter fun e => e.fst == CACHE_NAME || e.fst == RUNTIME_CACHE

/-- The filter applied by `syncData` to each cached request key:
`request.url.includes('/api/') && request.method !== 'GET'`.  Note that
the test is on the full URL string, not on the pathname. -/
def syncCond (req : Request) : Bool :=
  strIncludes req.url "/api/" && !(req.method == "GET")

/-- `syncData` (lines 318-347) restricted to its effect on the runtime
cache contents: walk the cached request keys in order; for each key whose
URL contains `/api/` and whose method is not GET, re-issue the fetch and
delete the entry on success (a rejected fetch is logged and the entry is
kept); other entries are left untouched.  Returns the remaining cache and
the list of requests that were re-issued. -/
def syncData (net : Net) : Cache → Cache × List Request
  | [] => ([], [])
  | (req, resp) :: rest =>
    let tail := syncData net rest
    if syncCond req then
      match net req with
      | some _ => (tail.fst, req :: tail.snd)
      | none => ((req, resp) :: tail.fst, req :: tail.snd)
    else ((req, resp) :: tail.fst, tail.snd)

theorem cacheMatchUrl_cachePutEntry (c : Cache) (req : Request) (r : Response) :
    cacheMatchUrl (cachePutEntry c req r) req.url = some r := by
  induction c with
  | nil => simp [cachePutEntry, cacheMatchUrl]
  | cons e rest ih =>
    simp only [cachePutEntry, List.filter_cons] at ih ⊢
    by_cases he : e.fst.url == req.url
    · simp [he, ih]
    · simp only [he]
      simp only [Bool.not_false, if_true]
      simpa [cacheMatchUrl, he] using ih

theorem namedCache_cachesOpenPut (st : CacheStore) (cname : String) (req : Request) (r : Response) :
    namedCache (cachesOpenPut st cname req r) cname = cachePutEntry (namedCache st cname) req r := by
  induction st with
  | nil => simp [cachesOpenPut, namedCache, lookupCache]
  | cons e rest ih =>
    obtain ⟨n, c⟩ := e
    by_cases he : n == cname
    · simp [cachesOpenPut, namedCache, lookupCache, he]
    · simpa [cachesOpenPut, namedCache, lookupCache, he] using ih

theorem runtimePut_contains (st : CacheStore) (req : Request) (r : Response) :
    cacheMatchUrl (namedCache (cachesOpenPut st RUNTIME_CACHE req r) RUNTIME_CACHE) req.url
      = some r := by
  rw [namedCache_cachesOpenPut]
  exact cacheMatchUrl_cachePutEntry _ _ _

/-- C2: cache-first serves a present cache entry without touching the
network or the store; on a miss it fetches, returns the network response,
stores a copy in the runtime cache exactly when the status is 200, and
answers with the synthetic 503 when the fetch rejects. -/
theorem cacheFirst_correct (net : Net) (st : CacheStore) (req : Request) :
    (∀ r, cachesMatch st req.url = some r →
      cacheFirst net st req = { response := r, store := st, fetched := [] }) ∧
    (cachesMatch st req.url = none → ∀ nr, net req = some nr →
      (cacheFirst net st req).response = nr ∧
      (cacheFirst net st req).fetched = [req] ∧
      (nr.status = 200 →
        cacheMatchUrl (namedCache (cacheFirst net st req).store RUNTIME_CACHE) req.url = some nr) ∧
      (nr.status ≠ 200 → (cacheFirst net st req).store = st)) ∧
    (cachesMatch st req.url = none → net req = none →
      cacheFirst net st req = { response := syntheticOffline, store := st, fetched := [req] }) := by
  refine ⟨fun r hr => by simp [cacheFirst, hr], fun hmiss nr hnet => ?_, fun hmiss hnet => by
    simp [cacheFirst, hmiss, hnet]⟩
  refine ⟨by simp [cacheFirst, hmiss, hnet], by simp [cacheFirst, hmiss, hnet], ?_, ?_⟩
  · intro h200
    simp [cacheFirst, hmiss, hnet, h200, runtimePut_contains]
  · intro h200
    simp [cacheFirst, hmiss, hnet, h200]

/-- Witness request/response fixtures for the executor theorems. -/
def reqA : Request :=
  { url := "https://app.example/data", pathname := "/data", method := "GET", mode := "cors" }

def res200 : Response := { status := 200, statusText := "OK", body := "payload" }

def stWithA : CacheStore := [(CACHE_NAME, [(reqA, res200)])]

/-- Witness for C2: with `reqA` cached, cache-first answers from the
cache without fetching; on the empty store with a rejecting network it
returns the synthetic 503. -/
theorem cacheFirst_correct_witness :
    cacheFirst (fun _ => none) stWithA reqA = { response := res200, store := stWithA, fetched := [] } ∧
    cacheFirst (fun _ => none) [] reqA =
      { response := syntheticOffline, store := [], fetched := [reqA] } :=
  ⟨(cacheFirst_correct (fun _ => none) stWithA reqA).1 res200 (by decide),
   (cacheFirst_correct (fun _ => none) [] reqA).2.2 (by decide) rfl⟩

/-- C3: network-first returns the network response (storing a copy in the
runtime cache when the status is 200); on a rejected fetch it returns the
cached entry when one exists, never the synthetic 503 in that case; with
no cached entry it serves the cached offline page to navigation requests,
and the synthetic 503 otherwise. -/
theorem networkFirst_correct (net : Net) (st : CacheStore) (req : Request) :
    (∀ nr, net req = some nr →
      (networkFirst net st req).response = nr ∧
      (networkFirst net st req).fetched = [req] ∧
      (nr.status = 200 →
        cacheMatchUrl (namedCache (networkFirst net st req).store RUNTIME_CACHE) req.url = some nr) ∧
      (nr.status ≠ 200 → (networkFirst net st req).store = st)) ∧
    (net req = none → ∀ r, cachesMatch st req.url = some r →
      networkFirst net st req = { response := r, store := st, fetched := [req] }) ∧
    (net req = none → cachesMatch st req.url = none → req.mode = "navigate" →
      ∀ off, cachesMatch st OFFLINE_URL = some off →
        networkFirst net st req = { response := off, store := st, fetched := [req] }) ∧
    (net req = none → cachesMatch st req.url = none →
      (req.mode ≠ "navigate" ∨ cachesMatch st OFFLINE_URL = none) →
      networkFirst net st req = { response := syntheticOffline, store := st, fetched := [req] }) := by
  refine ⟨fun nr hnet => ?_, fun hnet r hr => by simp [networkFirst, hnet, hr],
    fun hnet hmiss hnav off hoff => by simp [networkFirst, hnet, hmiss, hnav, hoff], ?_⟩
  · refine ⟨by simp [networkFirst, hnet], by simp [networkFirst, hnet], ?_, ?_⟩
    · intro h200
      simp [networkFirst, hnet, h200, runtimePut_contains]
    · intro h200
      simp [networkFirst, hnet, h200]
  · rintro hnet hmiss (hnav | hoff)
    · have : (req.mode == "navigate") = false := by
        simpa using hnav
      simp [networkFirst, hnet, hmiss, this]
    · by_cases hnav : req.mode == "navigate" <;>
        simp [networkFirst, hnet, hmiss, hnav, hoff]

def reqNav : Request :=
  { url := "https://app.example/page", pathname := "/page", method := "GET", mode := "navigate" }

def resOfflinePage : Response := { status := 200, statusText := "OK", body := "offline page" }

def reqOffline : Request :=
  { url := "/offline.html", pathname := "/offline.html", method := "GET", mode := "cors" }

def stWithOffline : CacheStore := [(CACHE_NAME, [(reqOffline, resOfflinePage)])]

/-- Witness for C3: cached fallback on network failure, and the offline
page for a navigation request with no cached entry. -/
theorem networkFirst_correct_witness :
    networkFirst (fun _ => none) stWithA reqA =
      { response := res200, store := stWithA, fetched := [reqA] } ∧
    networkFirst (fun _ => none) stWithOffline reqNav =
      { response := resOfflinePage, store := stWithOffline, fetched := [reqNav] } :=
  ⟨(networkFirst_correct (fun _ => none) stWithA reqA).2.1 rfl res200 (by decide),
   (networkFirst_correct (fun _ => none) stWithOffline reqNav).2.2.1 rfl (by decide) rfl
     resOfflinePage (by decide)⟩

/-- C4: stale-while-revalidate returns a present cache entry while the
background fetch refreshes the runtime cache on a 200 response (and
leaves the store alone on rejection); with no cached entry the caller
gets the fetch result, and on a rejected fetch the value of looking the
request up in the (unchanged) cache again. -/
theorem staleWhileRevalidate_correct (net : Net) (st : CacheStore) (req : Request) :
    (∀ c, cachesMatch st req.url = some c →
      (staleWhileRevalidate net st req).response = some c ∧
      (staleWhileRevalidate net st req).fetched = [req] ∧
      (∀ nr, net req = some nr → nr.status = 200 →
        cacheMatchUrl (namedCache (staleWhileRevalidate net st req).store RUNTIME_CACHE) req.url
          = some nr) ∧
      (net req = none → (staleWhileRevalidate net st req).store = st)) ∧
    (cachesMatch st req.url = none →
      (∀ nr, net req = some nr →
        (staleWhileRevalidate net st req).response = some nr ∧
        (nr.status = 200 →
          cacheMatchUrl (namedCache (staleWhileRevalidate net st req).store RUNTIME_CACHE) req.url
            = some nr)) ∧
      (net req = none →
        (staleWhileRevalidate net st req).store = st ∧
        (staleWhileRevalidate net st req).response =
          cachesMatch (staleWhileRevalidate net st req).store req.url)) := by
  constructor
  · intro c hc
    refine ⟨?_, ?_, fun nr hnet h200 => ?_, fun hnet => ?_⟩
    · cases hnet : net req <;> simp [staleWhileRevalidate, hc, hnet]
    · cases hnet : net req <;> simp [staleWhileRevalidate, hc, hnet]
    · simp [staleWhileRevalidate, hnet, h200, runtimePut_contains]
    · simp [staleWhileRevalidate, hnet]
  · intro hmiss
    refine ⟨fun nr hnet => ⟨by simp [staleWhileRevalidate, hmiss, hnet], fun h200 => by
      simp [staleWhileRevalidate, hnet, h200, runtimePut_contains]⟩, fun hnet => ?_⟩
    refine ⟨by simp [staleWhileRevalidate, hnet], ?_⟩
    simp [staleWhileRevalidate, hmiss, hnet]

/-- Witness for C4: cached entry is served while the network is down, and
on a full miss the caller gets the (empty) cache re-lookup. -/
theorem staleWhileRevalidate_correct_witness :
    (staleWhileRevalidate (fun _ => none) stWithA reqA).response = some res200 ∧
    (staleWhileRevalidate (fun _ => none) [] reqA).response = cachesMatch [] reqA.url :=
  ⟨((staleWhileRevalidate_correct (fun _ => none) stWithA reqA).1 res200 (by decide)).1,
   (((staleWhileRevalidate_correct (fun _ => none) [] reqA).2 (by decide)).2 rfl).2⟩

theorem lookupCache_cons (n : String) (c : Cache) (st : CacheStore) (cname : String) :
    lookupCache ((n, c) :: st) cname = if n == cname then some c else lookupCache st cname := by
  by_cases hn : n == cname <;> simp [lookupCache, List.find?_cons, hn]

theorem lookupCache_activateCleanup (st : CacheStore) (cname : String) :
    lookupCache (activateCleanup st) cname =
      if cname == CACHE_NAME || cname == RUNTIME_CACHE then lookupCache st cname else none := by
  induction st with
  | nil => simp [activateCleanup, lookupCache]
  | cons e rest ih =>
    obtain ⟨n, c⟩ := e
    simp only [activateCleanup, List.filter_cons] at ih ⊢
    by_cases hk : (n == CACHE_NAME || n == RUNTIME_CACHE) = true
    · simp only [hk, if_true]
      rw [lookupCache_cons]
      by_cases hn : n == cname
      · have hnc : n = cname := by simpa using hn
        subst hnc
        simp [hn, hk, lookupCache_cons]
      · rw [ih, lookupCache_cons]
        simp [hn]
    · have hk2 : (n == CACHE_NAME || n == RUNTIME_CACHE) = false := by
        simpa using hk
      simp only [hk2, Bool.false_eq_true, if_false]
      rw [ih, lookupCache_cons]
      by_cases hc : (cname == CACHE_NAME || cname == RUNTIME_CACHE) = true
      · have hn : (n == cname) = false := by
          by_contra hb
          have hnc : n = cname := by
            have hb2 : (n == cname) = true := by simpa using hb
            simpa using hb2
          subst hnc
          rw [hk2] at hc
          simp at hc
        simp [hn, hc]
      · have hc2 : (cname == CACHE_NAME || cname == RUNTIME_CACHE) = false := by
          simpa using hc
        simp [hc2]

/-- C5: the activate handler deletes every cache namespace other than the
current precache and runtime cache names, unconditionally, and preserves
those two with their contents. -/
theorem activate_correct (st : CacheStore) (cname : String) :
    (cname ≠ CACHE_NAME → cname ≠ RUNTIME_CACHE →
      lookupCache (activateCleanup st) cname = none) ∧
    lookupCache (activateCleanup st) CACHE_NAME = lookupCache st CACHE_NAME ∧
    lookupCache (activateCleanup st) RUNTIME_CACHE = lookupCache st RUNTIME_CACHE := by
  refine ⟨fun h1 h2 => ?_, ?_, ?_⟩
  · rw [lookupCache_activateCleanup]
    have b1 : (cname == CACHE_NAME) = false := by simpa using h1
    have b2 : (cname == RUNTIME_CACHE) = false := by simpa using h2
    simp [b1, b2]
  · rw [lookupCache_activateCleanup]; simp
  · rw [lookupCache_activateCleanup]; simp

/-- Witness for C5: a concrete store with one stale namespace. -/
theorem activate_correct_witness :
    lookupCache (activateCleanup [("council-app-v0.9.0", []), (CACHE_NAME, [(reqA, res200)])])
      "council-app-v0.9.0" = none :=
  (activate_correct [("council-app-v0.9.0", []), (CACHE_NAME, [(reqA, res200)])]
    "council-app-v0.9.0").1 (by decide) (by decide)

/-- A non-GET request whose URL string contains `/api/` only in its query
string: its pathname does not contain `/api/`. -/
def reqPost : Request :=
  { url := "https://app.example/submit?next=/api/x", pathname := "/submit",
    method := "POST", mode := "cors" }

/-- C6 counterexample: `syncData` filters on `request.url.includes('/api/')`,
the full URL string, not on the path.  This cached non-GET request has a
pathname without `/api/` (first conjunct), yet a sync run with a working
network re-issues it and deletes it from the cache (second conjunct) —
against the claim that entries whose path does not contain `/api/` are
neither fetched nor deleted. -/
theorem syncData_pathname_counterexample :
    strIncludes reqPost.pathname "/api/" = false ∧
    syncData (fun _ => some res200) [(reqPost, res200)] = ([], [reqPost]) := by
  constructor
  · decide
  · decide

/-- C6 amended: for a `sync-data` event, `syncData` re-issues exactly the
cached requests whose full URL string contains `/api/` and whose method
is not GET; of those, the ones whose re-issue resolves are deleted and
the ones whose re-issue rejects are retained; entries not matching the
filter are neither fetched nor deleted. -/
theorem syncData_url_filter_correct (net : Net) (cache : Cache) :
    (syncData net cache).snd = (cache.map Prod.fst).filter syncCond ∧
    (syncData net cache).fst =
      cache.filter fun e => !(syncCond e.fst) || (net e.fst).isNone := by
  induction cache with
  | nil => simp [syncData]
  | cons e rest ih =>
    obtain ⟨req, resp⟩ := e
    by_cases hc : syncCond req
    · cases hn : net req <;>
        simp [syncData, hc, hn, ih.1, ih.2]
    · simp [syncData, hc, ih.1, ih.2]

end ServiceWorker

/-- JS numbers as the map wrappers use them: stored and forwarded, never
computed with, so rationals model them exactly. -/
abbrev Num : Type := ℚ

/-- A JS option value as the wrappers pass them (strings, numbers,
booleans). -/
inductive JVal where
  | str (s : String)
  | num (q : Num)
  | boolean (b : Bool)
deriving DecidableEq, Repr

/-- A JS option object as an ordered key/value list. -/
abbrev Opts : Type := List (String × JVal)

/-- JS object spread `{...a, ...b}` for option objects: keys of `b`
override keys of `a`. -/
def jsMerge {α : Type} (a b : List (String × α)) : List (String × α) :=
  (a.filter fun e => (b.lookup e.fst).isNone) ++ b

/-- JS object property write `o[k] = v`: replace the value when the key
exists, append it otherwise. -/
def assocSet {α : Type} (l : List (String × α)) (k : String) (v : α) : List (String × α) :=
  if (l.lookup k).isSome then l.map fun e => if e.fst == k then (e.fst, v) else e
  else l ++ [(k, v)]

/-- The JS exception a wrapper body would raise (dereferencing null,
calling a method of undefined). -/
inductive JsError where
  | typeError
deriving DecidableEq, Repr

namespace LeafletWrapper

/-- One overlay added to the layer group of src/js/leafletWrapper.js,
carrying the arguments of the Leaflet constructor call that built it. -/
inductive Overlay where
  | marker (lat lng : Num) (popupText : Option String)
  | circle (lat lng radius : Num) (options : Opts)
  | polygon (latLngs : List (Num × Num)) (options : Opts)
  | polyline (latLngs : List (Num × Num)) (options : Opts)
  | geoJson (geoJsonData : JVal) (options : Opts)
deriving DecidableEq

/-- The module-level state of src/js/leafletWrapper.js: the `map`,
`drawnItems`, `drawControl`, `miniMapControl` and `layerGroup` variables.
Map instances are numbered; `live` is the set of created-and-not-removed
Leaflet map instances (the external world, for tracking release of prior
instances) and `nextId` feeds instance numbering. -/
structure State where
  map : Option Nat
  drawnItems : Option (List Overlay)
  drawControl : Option Unit
  miniMapControl : Option Unit
  layerGroup : Option (List Overlay)
  live : List Nat
  nextId : Nat
deriving DecidableEq

/-- Module load: every variable starts at `null`. -/
def initialState : State :=
  { map := none, drawnItems := none, drawControl := none, miniMapControl := none,
    layerGroup := none, live := [], nextId := 0 }

/-- Result of one wrapper call: the JS outcome (normal return or thrown
error), the module state afterwards, and the console messages emitted. -/
structure Effect where
  result : Except JsError Unit
  state : State
  log : List String

/-- `createMap` (lines 9-22): `if (map) { map.remove(); }`, then install a
fresh map with a fresh empty layer group. -/
def createMap (elementId : String) (lat lng zoom : Num) (s : State) : Effect :=
  let live1 :=
    match s.map with
    | some m => s.live.erase m
    | none => s.live
  { result := Except.ok ()
    state :=
      { s with
        map := some s.nextId
        live := live1 ++ [s.nextId]
        nextId := s.nextId + 1
        layerGroup := some [] }
    log := [] }

/-- `addMarker` (lines 37-50): null-map check with a console error, else
build the marker and add it to the layer group. -/
def addMarker (lat lng : Num) (popupText : Option String) (s : State) : Effect :=
  match s.map with
  | none => { result := Except.ok (), state := s, log := ["Map not initialized"] }
  | some _ =>
    match s.layerGroup with
    | some g =>
      { result := Except.ok ()
        state := { s with layerGroup := some (g ++ [Overlay.marker lat lng popupText]) }
        log := [] }
    | none => { result := Except.error JsError.typeError, state := s, log := [] }

/-- `addCircle` (lines 53-71): defaults merged with caller options and the
radius, added to the layer group. -/
def addCircle (lat lng radius : Num) (options : Opts) (s : State) : Effect :=
  match s.map with
  | none => { result := Except.ok (), state := s, log := ["Map not initialized"] }
  | some _ =>
    let defaultOptions : Opts :=
      [("color", JVal.str "red"), ("fillColor", JVal.str "#f03"), ("fillOpacity", JVal.num (1/2))]
    let circle := Overlay.circle lat lng radius
      (jsMerge (jsMerge defaultOptions options) [("radius", JVal.num radius)])
    match s.layerGroup with
    | some g =>
      { result := Except.ok (), state := { s with layerGroup := some (g ++ [circle]) }, log := [] }
    | none => { result := Except.error JsError.typeError, state := s, log := [] }

/-- `addPolygon` (lines 74-90). -/
def addPolygon (latLngs : List (Num × Num)) (options : Opts) (s : State) : Effect :=
  match s.map with
  | none => { result := Except.ok (), state := s, log := ["Map not initialized"] }
  | some _ =>
    let defaultOptions : Opts :=
      [("color", JVal.str "blue"), ("fillColor", JVal.str "#30f"), ("fillOpacity", JVal.num (1/2))]
    let polygon := Overlay.polygon latLngs (jsMerge defaultOptions options)
    match s.layerGroup with
    | some g =>
      { result := Except.ok (), state := { s with layerGroup := some (g ++ [polygon]) }, log := [] }
    | none => { result := Except.error JsError.typeError, state := s, log := [] }

/-- `addPolyline` (lines 93-109). -/
def addPolyline (latLngs : List (Num × Num)) (options : Opts) (s : State) : Effect :=
  match s.map with
  | none => { result := Except.ok (), state := s, log := ["Map not initialized"] }
  | some _ =>
    let defaultOptions : Opts :=
      [("color", JVal.str "green"), ("weight", JVal.num 3), ("opacity", JVal.num (7/10))]
    let polyline := Overlay.polyline latLngs (jsMerge defaultOptions options)
    match s.layerGroup with
    | some g =>
      { result := Except.ok (), state := { s with layerGroup := some (g ++ [polyline]) }, log := [] }
    | none => { result := Except.error JsError.typeError, state := s, log := [] }

/-- `addGeoJson` (lines 112-120). -/
def addGeoJson (geoJsonData : JVal) (options : Opts) (s : State) : Effect :=
  match s.map with
  | none => { result := Except.ok (), state := s, log := ["Map not initialized"] }
  | some _ =>
    match s.layerGroup with
    | some g =>
      { result := Except.ok ()
        state := { s with layerGroup := some (g ++ [Overlay.geoJson geoJsonData options]) }
        log := [] }
    | none => { result := Except.error JsError.typeError, state := s, log := [] }

end LeafletWrapper

namespace LeafletMap

/-- A marker entry of the `markers` array of
src/_content/CompanyApp.Component.Council.Activity/leafletMap.js. -/
structure Marker where
  lat : Num
  lng : Num
  title : String
  popupContent : Option String
  color : String
deriving DecidableEq

/-- The `properties` object taken by `addParcel`. -/
structure ParcelProps where
  borderColor : Option String
  fillColor : Option String
  fillOpacity : Option Num
  weight : Option Num
  popupContent : Option String
  id : String
deriving DecidableEq

/-- A parcel polygon with the style resolved by the `||` defaults of
`addParcel` (`x || d` modelled as `Option.getD`, the absent-property
case). -/
structure Parcel where
  coordinates : List (Num × Num)
  borderColor : String
  fillColor : String
  fillOpacity : Num
  weight : Num
  popupContent : Option String
  propsId : String
deriving DecidableEq

def mkParcel (coordinates : List (Num × Num)) (properties : ParcelProps) : Parcel :=
  { coordinates := coordinates
    borderColor := properties.borderColor.getD "#3388ff"
    fillColor := properties.fillColor.getD "#3388ff"
    fillOpacity := properties.fillOpacity.getD (2/5)
    weight := properties.weight.getD 2
    popupContent := properties.popupContent
    propsId := properties.id }

/-- A chiefdom boundary polygon with its generated popup text. -/
structure Boundary where
  coordinates : List (Num × Num)
  color : String
  popup : String
deriving DecidableEq

/-- Module state of leafletMap.js: `map`, `markers`, `parcels`,
`chiefdomBoundaries`, plus the live-instance bookkeeping. -/
structure State where
  map : Option Nat
  markers : List Marker
  parcels : List Parcel
  chiefdomBoundaries : List Boundary
  live : List Nat
  nextId : Nat
deriving DecidableEq

def initialState : State :=
  { map := none, markers := [], parcels := [], chiefdomBoundaries := [], live := [], nextId := 0 }

/-- `initializeMap` (lines 7-26): the try block installs a fresh map
instance; there is no release of a prior instance.  Returns the boolean
result, the new state and the console messages. -/
def initializeMap (elementId : String) (latitude longitude zoom : Num) (s : State) :
    Bool × State × List String :=
  (true,
   { s with map := some s.nextId, live := s.live ++ [s.nextId], nextId := s.nextId + 1 },
   [])

/-- `addMarker` (lines 28-47): `if (!map) return null;` with no logging;
else push the marker and return its index (`markers.length - 1` after the
push, i.e. the old length). -/
def addMarker (lat lng : Num) (title : String) (popupContent : Option String) (color : String)
    (s : State) : Option Nat × State × List String :=
  match s.map with
  | none => (none, s, [])
  | some _ =>
    (some s.markers.length,
     { s with markers := s.markers ++ [Marker.mk lat lng title popupContent color] },
     [])

/-- `addParcel` (lines 49-78): `if (!map) return null;` silently; else
push the styled polygon and return its index. -/
def addParcel (coordinates : List (Num × Num)) (properties : ParcelProps) (s : State) :
    Option Nat × State × List String :=
  match s.map with
  | none => (none, s, [])
  | some _ =>
    (some s.parcels.length,
     { s with parcels := s.parcels ++ [mkParcel coordinates properties] },
     [])

/-- `addChiefdomBoundary` (lines 80-99): `if (!map) return null;`
silently; else push the boundary with its generated popup. -/
def addChiefdomBoundary (coordinates : List (Num × Num)) (chiefdomName color : String)
    (s : State) : Option Nat × State × List String :=
  match s.map with
  | none => (none, s, [])
  | some _ =>
    (some s.chiefdomBoundaries.length,
     { s with chiefdomBoundaries := s.chiefdomBoundaries ++
         [Boundary.mk coordinates color
           ("<strong>" ++ chiefdomName ++ "</strong><br>Chiefdom Boundary")] },
     [])

/-- `disposeMap` (lines 168-174): when a map is present, clear all
registries, remove the map instance and null the handle. -/
def disposeMap (s : State) : State × List String :=
  match s.map with
  | some m =>
    ({ s with
        map := none
        markers := []
        parcels := []
        chiefdomBoundaries := []
        live := s.live.erase m },
     [])
  | none => (s, [])

end LeafletMap

/-- C7 counterexample: with the map handle null, leafletMap's `addMarker`
returns null silently — the third component shows that no console message
is emitted, so the call is a no-op but not a logged one, against the claim
that every add-overlay operation in this situation is a logged no-op. -/
theorem addOverlay_silent_counterexample :
    LeafletMap.initialState.map = none ∧
    LeafletMap.addMarker 1 2 "Office" none "blue" LeafletMap.initialState =
      (none, LeafletMap.initialState, []) :=
  ⟨rfl, rfl⟩

/-- C7 amended: with a null map handle, every add-overlay operation of
both wrappers is a no-op that does not throw and leaves the module state
(and every layer/marker registry) unchanged; the leafletWrapper
operations log a console error, while leafletMap's `addMarker`,
`addParcel` and `addChiefdomBoundary` log nothing and return null. -/
theorem addOverlay_nullMap_noop
    (s : LeafletWrapper.State) (t : LeafletMap.State)
    (hs : s.map = none) (ht : t.map = none)
    (lat lng radius : Num) (popupText : Option String) (options : Opts)
    (latLngs coordinates : List (Num × Num)) (geoJsonData : JVal)
    (title chiefdomName color : String) (popupContent : Option String)
    (properties : LeafletMap.ParcelProps) :
    LeafletWrapper.addMarker lat lng popupText s =
      ⟨Except.ok (), s, ["Map not initialized"]⟩ ∧
    LeafletWrapper.addCircle lat lng radius options s =
      ⟨Except.ok (), s, ["Map not initialized"]⟩ ∧
    LeafletWrapper.addPolygon latLngs options s =
      ⟨Except.ok (), s, ["Map not initialized"]⟩ ∧
    LeafletWrapper.addPolyline latLngs options s =
      ⟨Except.ok (), s, ["Map not initialized"]⟩ ∧
    LeafletWrapper.addGeoJson geoJsonData options s =
      ⟨Except.ok (), s, ["Map not initialized"]⟩ ∧
    LeafletMap.addMarker lat lng title popupContent color t = (none, t, []) ∧
    LeafletMap.addParcel coordinates properties t = (none, t, []) ∧
    LeafletMap.addChiefdomBoundary coordinates chiefdomName color t = (none, t, []) := by
  refine ⟨?_, ?_, ?_, ?_, ?_, ?_, ?_, ?_⟩ <;>
    simp [LeafletWrapper.addMarker, LeafletWrapper.addCircle, LeafletWrapper.addPolygon,
      LeafletWrapper.addPolyline, LeafletWrapper.addGeoJson, LeafletMap.addMarker,
      LeafletMap.addParcel, LeafletMap.addChiefdomBoundary, hs, ht]

/-- Witness for C7 (amended) at the freshly loaded module states. -/
theorem addOverlay_nullMap_noop_witness :
    LeafletWrapper.addMarker 1 2 none LeafletWrapper.initialState =
      ⟨Except.ok (), LeafletWrapper.initialState, ["Map not initialized"]⟩ ∧
    LeafletMap.addParcel [] (LeafletMap.ParcelProps.mk none none none none none "p1")
      LeafletMap.initialState = (none, LeafletMap.initialState, []) :=
  ⟨(addOverlay_nullMap_noop LeafletWrapper.initialState LeafletMap.initialState rfl rfl
      1 2 3 none [] [] [] (JVal.str "x") "t" "Chiefdom" "blue" none
      (LeafletMap.ParcelProps.mk none none none none none "p1")).1,
   (addOverlay_nullMap_noop LeafletWrapper.initialState LeafletMap.initialState rfl rfl
      1 2 3 none [] [] [] (JVal.str "x") "t" "Chiefdom" "blue" none
      (LeafletMap.ParcelProps.mk none none none none none "p1")).2.2.2.2.2.2.1⟩

/-- C8 counterexample: two successive `initializeMap` calls on the
leafletMap wrapper.  After the first, the handle is map instance 0; after
the second, instance 0 is still live (live list `[0, 1]`), so the second
initialize call installed a new map without first releasing the prior
instance, against the claim that every initialize call that finds an
existing handle first releases it. -/
theorem initializeMap_no_release_counterexample :
    ((LeafletMap.initializeMap "m" 0 0 13 LeafletMap.initialState).2.1).map = some 0 ∧
    ((LeafletMap.initializeMap "m" 0 0 13
        ((LeafletMap.initializeMap "m" 0 0 13 LeafletMap.initialState).2.1)).2.1).live
      = [0, 1] :=
  ⟨rfl, rfl⟩

/-- C8 amended: leafletWrapper's `createMap` removes the prior map
instance before installing the fresh one, and leafletMap's `disposeMap`
removes the instance and nulls the handle; leafletMap's `initializeMap`,
however, installs a fresh instance without releasing the prior one,
which stays in the live set. -/
theorem mapHandle_lifecycle (s : LeafletWrapper.State) (t : LeafletMap.State)
    (elementId : String) (lat lng zoom : Num) :
    (∀ m, s.map = some m →
      (LeafletWrapper.createMap elementId lat lng zoom s).state.live
          = (s.live.erase m) ++ [s.nextId] ∧
        (LeafletWrapper.createMap elementId lat lng zoom s).state.map = some s.nextId) ∧
    (∀ m, t.map = some m →
      (LeafletMap.disposeMap t).fst.map = none ∧
        (LeafletMap.disposeMap t).fst.live = t.live.erase m) ∧
    (∀ m, t.map = some m →
      ((LeafletMap.initializeMap elementId lat lng zoom t).2.1).live = t.live ++ [t.nextId] ∧
        ((LeafletMap.initializeMap elementId lat lng zoom t).2.1).map = some t.nextId ∧
        (m ∈ t.live → m ∈ ((LeafletMap.initializeMap elementId lat lng zoom t).2.1).live)) := by
  refine ⟨fun m hm => ?_, fun m hm => ?_, fun m hm => ?_⟩
  · simp [LeafletWrapper.createMap, hm]
  · simp [LeafletMap.disposeMap, hm]
  · refine ⟨by simp [LeafletMap.initializeMap], by simp [LeafletMap.initializeMap], fun hmem => ?_⟩
    simp [LeafletMap.initializeMap, hmem]

/-- A leafletWrapper state holding map instance 0, as left by a first
`createMap` call. -/
def lwStateWithMap : LeafletWrapper.State :=
  (LeafletWrapper.createMap "el" 0 0 13 LeafletWrapper.initialState).state

/-- A leafletMap state holding map instance 0, as left by a first
`initializeMap` call. -/
def lmStateWithMap : LeafletMap.State :=
  (LeafletMap.initializeMap "el" 0 0 13 LeafletMap.initialState).2.1

/-- Witness for C8 (amended) on concrete one-map states. -/
theorem mapHandle_lifecycle_witness :
    (LeafletWrapper.createMap "el" 0 0 13 lwStateWithMap).state.live
        = (lwStateWithMap.live.erase 0) ++ [lwStateWithMap.nextId] ∧
      (LeafletWrapper.createMap "el" 0 0 13 lwStateWithMap).state.map
        = some lwStateWithMap.nextId :=
  (mapHandle_lifecycle lwStateWithMap lmStateWithMap "el" 0 0 13).1 0 rfl

namespace GIS

/-!
The GIS component interop (src/unnamed/part_000): a map handle, a
`layers` dictionary from string identifier to overlay object, a `markers`
dictionary, and the base/satellite/drawing/measurement layer variables.
The view and the tile layers on screen are not part of the module state;
user click events feeding the drawing modes are external and only touch
the drawing layer, never the `layers` or `markers` dictionaries.
-/

/-- A GeoJSON feature as produced by `toGeoJSON` of an overlay: a point
(circles and markers export their centre), a polygon, or a raw feature
carried inside data handed to `L.geoJSON`. -/
inductive GFeature where
  | ofPoint (lat lng : Num)
  | ofPolygon (latLngs : List (Num × Num))
  | raw (v : JVal)
deriving DecidableEq

/-- A GIS option value: a plain JS value or the nested `style` object
taken by `L.geoJSON`. -/
inductive GOptVal where
  | plain (v : JVal)
  | styleObj (fields : Opts)
deriving DecidableEq

abbrev GOpts : Type := List (String × GOptVal)

/-- An entry of the `layers` dictionary, carrying the constructor
arguments of the Leaflet call that built it. -/
inductive Layer where
  | circle (lat lng : Num) (options : GOpts)
  | polygon (latLngs : List (Num × Num)) (options : GOpts)
  | geoJson (features : List GFeature) (options : GOpts)
deriving DecidableEq

/-- An entry of the `markers` dictionary. -/
structure Marker where
  lat : Num
  lng : Num
  popupText : Option String
deriving DecidableEq

/-- `layer.toGeoJSON()`: a single feature for circles and polygons, a
FeatureCollection of the contained features for `L.geoJSON` groups. -/
inductive LayerGeoJson where
  | feature (f : GFeature)
  | featureCollection (features : List GFeature)
deriving DecidableEq

def layerToGeoJson : Layer → LayerGeoJson
  | Layer.circle lat lng _ => LayerGeoJson.feature (GFeature.ofPoint lat lng)
  | Layer.polygon latLngs _ => LayerGeoJson.feature (GFeature.ofPolygon latLngs)
  | Layer.geoJson fs _ => LayerGeoJson.featureCollection fs

/-- Module state of part_000.  `clock` models `Date.now()` for the
timestamp-based identifiers; `nextId` numbers created map instances. -/
structure State where
  map : Option Nat
  layers : List (String × Layer)
  markers : List (String × Marker)
  currentBaseLayer : Option String
  satelliteLayer : Option String
  drawingLayer : Option Unit
  measurementLayer : Option Unit
  currentDrawingMode : Option String
  nextId : Nat
  clock : Nat
deriving DecidableEq

/-- Module load: nulls and empty dictionaries. -/
def initialState : State :=
  { map := none, layers := [], markers := [], currentBaseLayer := none,
    satelliteLayer := none, drawingLayer := none, measurementLayer := none,
    currentDrawingMode := none, nextId := 0, clock := 0 }

/-- `createMap` (lines 11-25): remove any prior map, install a fresh one
with the OpenStreetMap base layer.  The `layers`/`markers` dictionaries
are module variables and are not reset. -/
def createMap (elementId : String) (lat lng zoom : Num) (s : State) : State :=
  { s with
      map := some s.nextId
      nextId := s.nextId + 1
      currentBaseLayer := some "https://{s}.tile.openstreetmap.org/{z}/{x}/{y}.png" }

/-- Tile URL chosen by the `changeBaseMap` switch; `none` models the
early return of the Mapbox case without an API key. -/
def baseTileUrl (mapType : String) (apiKey : Option String) : Option String :=
  if mapType == "osm" || mapType == "street" then
    some "https://{s}.tile.openstreetmap.org/{z}/{x}/{y}.png"
  else if mapType == "satellite" || mapType == "esri" || mapType == "hybrid" then
    some "https://server.arcgisonline.com/ArcGIS/rest/services/World_Imagery/MapServer/tile/{z}/{y}/{x}"
  else if mapType == "terrain" then
    some "https://{s}.tile.opentopomap.org/{z}/{x}/{y}.png"
  else if mapType == "mapbox-satellite" then
    apiKey.map fun _ => "https://api.mapbox.com/v4/mapbox.satellite/{z}/{x}/{y}.jpg"
  else some "https://{s}.tile.openstreetmap.org/{z}/{x}/{y}.png"

/-- `changeBaseMap` (lines 28-91) at the granularity of the module state:
with no map it is a no-op; the Mapbox case without an API key logs and
returns; otherwise the current base layer variable is replaced. -/
def changeBaseMap (mapType : String) (apiKey : Option String) (s : State) : State :=
  match s.map with
  | none => s
  | some _ =>
    match baseTileUrl mapType apiKey with
    | some url => { s with currentBaseLayer := some url }
    | none => s

/-- Satellite tile URL chosen by the `addSatelliteLayer` switch; `none`
for the Mapbox case without a key and for unknown providers (default
case returns). -/
def satelliteTileUrl (providerName : String) (apiKey : Option String) : Option String :=
  if providerName == "esri" then
    some "https://server.arcgisonline.com/ArcGIS/rest/services/World_Imagery/MapServer/tile/{z}/{y}/{x}"
  else if providerName == "mapbox-satellite" then
    apiKey.map fun _ => "https://api.mapbox.com/v4/mapbox.satellite/{z}/{x}/{y}.jpg"
  else if providerName == "google-satellite" then
    some "http://mt0.google.com/vt/lyrs=s"
  else none

/-- `addSatelliteLayer` (lines 94-132). -/
def addSatelliteLayer (providerName : String) (apiKey : Option String) (s : State) : State :=
  match s.map with
  | none => s
  | some _ =>
    match satelliteTileUrl providerName apiKey with
    | some url => { s with satelliteLayer := some url }
    | none => s

/-- `removeSatelliteLayer` (lines 134-139). -/
def removeSatelliteLayer (s : State) : State :=
  match s.satelliteLayer, s.map with
  | some _, some _ => { s with satelliteLayer := none }
  | _, _ => s

/-- `enableDrawingMode` (lines 142-214): guarded by the map; creates the
drawing layer when missing and records the mode.  The click handlers it
installs add shapes only to the drawing layer. -/
def enableDrawingMode (mode : String) (options : Opts) (s : State) : State :=
  match s.map with
  | none => s
  | some _ =>
    { s with currentDrawingMode := some mode, drawingLayer := some () }

/-- `disableDrawingMode` (lines 216-221). -/
def disableDrawingMode (s : State) : State :=
  match s.map with
  | none => s
  | some _ => { s with currentDrawingMode := none }

/-- `enableMeasurement` (lines 224-283): guarded by the map; creates the
measurement layer when missing. -/
def enableMeasurement (measurementType : String) (s : State) : State :=
  match s.map with
  | none => s
  | some _ => { s with measurementLayer := some () }

/-- `disableMeasurement` (lines 285-292): clears the measurement layer
contents (tracked only as presence). -/
def disableMeasurement (s : State) : State :=
  match s.map with
  | none => s
  | some _ => s

/-- `exportToGeoJson` all-layers branch: every layer contributes its
single feature, or all its features when its `toGeoJSON` is a
FeatureCollection. -/
def exportAllLayers (s : State) : List GFeature :=
  (s.layers.map fun e =>
    match layerToGeoJson e.snd with
    | LayerGeoJson.feature f => [f]
    | LayerGeoJson.featureCollection fs => fs).flatten

/-- The serialized value returned by `exportToGeoJson`: either one
layer's own GeoJSON, or the assembled FeatureCollection
(`JSON.stringify` is modelled by returning the structured value). -/
inductive ExportResult where
  | layer (g : LayerGeoJson)
  | featureCollection (features : List GFeature)
deriving DecidableEq

/-- `exportToGeoJson` (lines 350-372): with a layer identifier naming a
present layer, serialize that layer; otherwise (no identifier, or an
unknown one) serialize the FeatureCollection of all layers. -/
def exportToGeoJson (layerId : Option String) (s : State) : ExportResult :=
  match layerId with
  | some lid =>
    match s.layers.lookup lid with
    | some l => ExportResult.layer (layerToGeoJson l)
    | none => ExportResult.featureCollection (exportAllLayers s)
  | none => ExportResult.featureCollection (exportAllLayers s)

/-- `addMarker` (lines 374-386): guarded by the map; stores the marker
under a timestamp identifier and returns it (`none` is the `undefined` of
the early return). -/
def addMarker (lat lng : Num) (popupText : Option String) (s : State) :
    Option String × State :=
  match s.map with
  | none => (none, s)
  | some _ =>
    let markerId := "marker_" ++ toString s.clock
    (some markerId,
     { s with markers := assocSet s.markers markerId (Marker.mk lat lng popupText)
              clock := s.clock + 1 })

/-- `addCircle` (lines 388-401): note the radius is part of the default
options, so caller options may override it. -/
def addCircle (lat lng radius : Num) (options : GOpts) (s : State) :
    Option String × State :=
  match s.map with
  | none => (none, s)
  | some _ =>
    let defaultOptions : GOpts :=
      [("color", GOptVal.plain (JVal.str "#3388ff")),
       ("fillColor", GOptVal.plain (JVal.str "#3388ff")),
       ("fillOpacity", GOptVal.plain (JVal.num (1/5))),
       ("radius", GOptVal.plain (JVal.num radius))]
    let circleId := "circle_" ++ toString s.clock
    (some circleId,
     { s with layers := assocSet s.layers circleId
                (Layer.circle lat lng (jsMerge defaultOptions options))
              clock := s.clock + 1 })

/-- `addPolygon` (lines 403-414). -/
def addPolygon (latLngs : List (Num × Num)) (options : GOpts) (s : State) :
    Option String × State :=
  match s.map with
  | none => (none, s)
  | some _ =>
    let defaultOptions : GOpts :=
      [("color", GOptVal.plain (JVal.str "#3388ff")),
       ("fillColor", GOptVal.plain (JVal.str "#3388ff")),
       ("fillOpacity", GOptVal.plain (JVal.num (1/5)))]
    let polygonId := "polygon_" ++ toString s.clock
    (some polygonId,
     { s with layers := assocSet s.layers polygonId
                (Layer.polygon latLngs (jsMerge defaultOptions options))
              clock := s.clock + 1 })

/-- `addGeoJson` (lines 416-433): the default options carry a nested
`style` object. -/
def addGeoJson (geoJson : List GFeature) (options : GOpts) (s : State) :
    Option String × State :=
  match s.map with
  | none => (none, s)
  | some _ =>
    let defaultOptions : GOpts :=
      [("style", GOptVal.styleObj
        [("color", JVal.str "#3388ff"), ("weight", JVal.num 2),
         ("opacity", JVal.num 1), ("fillOpacity", JVal.num (1/5))])]
    let layerId := "geojson_" ++ toString s.clock
    (some layerId,
     { s with layers := assocSet s.layers layerId
                (Layer.geoJson geoJson (jsMerge defaultOptions options))
              clock := s.clock + 1 })

/-- `addLayer` (lines 435-453): `JSON.parse(layerData)` either yields
feature data (`some`) or throws (`none`), in which case the error is
caught and logged with no state change. -/
def addLayer (layerId : String) (layerData : Option (List GFeature)) (style : Option Opts)
    (s : State) : State :=
  match s.map with
  | none => s
  | some _ =>
    match layerData with
    | some data =>
      { s with layers := assocSet s.layers layerId
                 (Layer.geoJson data
                   [("style", GOptVal.styleObj (style.getD
                     [("color", JVal.str "#3388ff"), ("weight", JVal.num 2),
                      ("opacity", JVal.num 1), ("fillOpacity", JVal.num (1/5))]))]) }
    | none => s

/-- `removeLayer` (lines 455-460): guarded only by presence in the
dictionary; with a present layer and a null map, `map.removeLayer`
throws before the deletion. -/
def removeLayer (layerId : String) (s : State) : Except JsError State :=
  if (s.layers.lookup layerId).isSome then
    match s.map with
    | none => Except.error JsError.typeError
    | some _ => Except.ok { s with layers := s.layers.filter fun e => !(e.fst == layerId) }
  else Except.ok s

/-- `setLayerOpacity`'s `layer.setStyle({ fillOpacity, opacity })`. -/
def setStyle (l : Layer) (opacity : Num) : Layer :=
  let patch : GOpts :=
    [("fillOpacity", GOptVal.plain (JVal.num opacity)),
     ("opacity", GOptVal.plain (JVal.num opacity))]
  match l with
  | Layer.circle lat lng opts => Layer.circle lat lng (jsMerge opts patch)
  | Layer.polygon ll opts => Layer.polygon ll (jsMerge opts patch)
  | Layer.geoJson fs opts => Layer.geoJson fs (jsMerge opts patch)

/-- `setLayerOpacity` (lines 462-466). -/
def setLayerOpacity (layerId : String) (opacity : Num) (s : State) : State :=
  if (s.layers.lookup layerId).isSome then
    { s with layers := s.layers.map fun e =>
        if e.fst == layerId then (e.fst, setStyle e.snd opacity) else e }
  else s

/-- `clearMap` (lines 495-509): guarded by the map; removes every layer
and marker from the map and resets both dictionaries. -/
def clearMap (s : State) : State :=
  match s.map with
  | none => s
  | some _ => { s with layers := [], markers := [] }

/-- The states the module can be in: the initial state closed under the
exported operations.  Operations that do not change the module state
(`toggleLayerVisibility`, `fitBounds`, `setView`, `enableEditMode`,
`disableEditMode`, the measurement functions and the export) need no
constructor, since they produce a state already in the set. -/
inductive Reachable : State → Prop where
  | init : Reachable initialState
  | createMap (elementId : String) (lat lng zoom : Num) {s : State} :
      Reachable s → Reachable (createMap elementId lat lng zoom s)
  | changeBaseMap (mapType : String) (apiKey : Option String) {s : State} :
      Reachable s → Reachable (changeBaseMap mapType apiKey s)
  | addSatelliteLayer (providerName : String) (apiKey : Option String) {s : State} :
      Reachable s → Reachable (addSatelliteLayer providerName apiKey s)
  | removeSatelliteLayer {s : State} :
      Reachable s → Reachable (removeSatelliteLayer s)
  | enableDrawingMode (mode : String) (options : Opts) {s : State} :
      Reachable s → Reachable (enableDrawingMode mode options s)
  | disableDrawingMode {s : State} :
      Reachable s → Reachable (disableDrawingMode s)
  | enableMeasurement (measurementType : String) {s : State} :
      Reachable s → Reachable (enableMeasurement measurementType s)
  | addMarker (lat lng : Num) (popupText : Option String) {s : State} :
      Reachable s → Reachable (addMarker lat lng popupText s).snd
  | addCircle (lat lng radius : Num) (options : GOpts) {s : State} :
      Reachable s → Reachable (addCircle lat lng radius options s).snd
  | addPolygon (latLngs : List (Num × Num)) (options : GOpts) {s : State} :
      Reachable s → Reachable (addPolygon latLngs options s).snd
  | addGeoJson (geoJson : List GFeature) (options : GOpts) {s : State} :
      Reachable s → Reachable (addGeoJson geoJson options s).snd
  | addLayer (layerId : String) (layerData : Option (List GFeature)) (style : Option Opts)
      {s : State} : Reachable s → Reachable (addLayer layerId layerData style s)
  | removeLayer (layerId : String) {s s2 : State} :
      Reachable s → removeLayer layerId s = Except.ok s2 → Reachable s2
  | setLayerOpacity (layerId : String) (opacity : Num) {s : State} :
      Reachable s → Reachable (setLayerOpacity layerId opacity s)
  | clearMap {s : State} : Reachable s → Reachable (clearMap s)

/-- The dictionary-emptiness invariant: a null map handle means both
dictionaries are empty. -/
def NullEmpty (s : State) : Prop :=
  s.map = none → s.layers = [] ∧ s.markers = []

theorem nullEmpty_initial : NullEmpty initialState := fun _ => ⟨rfl, rfl⟩

theorem nullEmpty_createMap {s : State} (elementId : String) (lat lng zoom : Num) :
    NullEmpty (createMap elementId lat lng zoom s) := by
  intro hm; simp [createMap] at hm

theorem nullEmpty_changeBaseMap {s : State} (h : NullEmpty s) (mapType : String)
    (apiKey : Option String) : NullEmpty (changeBaseMap mapType apiKey s) := by
  unfold NullEmpty changeBaseMap
  split
  · exact h
  · split <;> intro hm <;> simp_all [NullEmpty]

theorem nullEmpty_addSatelliteLayer {s : State} (h : NullEmpty s) (providerName : String)
    (apiKey : Option String) : NullEmpty (addSatelliteLayer providerName apiKey s) := by
  unfold NullEmpty addSatelliteLayer
  split
  · exact h
  · split <;> intro hm <;> simp_all [NullEmpty]

theorem nullEmpty_removeSatelliteLayer {s : State} (h : NullEmpty s) :
    NullEmpty (removeSatelliteLayer s) := by
  unfold NullEmpty removeSatelliteLayer
  split <;> intro hm <;> simp_all [NullEmpty]

theorem nullEmpty_enableDrawingMode {s : State} (h : NullEmpty s) (mode : String)
    (options : Opts) : NullEmpty (enableDrawingMode mode options s) := by
  unfold NullEmpty enableDrawingMode
  split <;> intro hm <;> simp_all [NullEmpty]

theorem nullEmpty_disableDrawingMode {s : State} (h : NullEmpty s) :
    NullEmpty (disableDrawingMode s) := by
  unfold NullEmpty disableDrawingMode
  split <;> intro hm <;> simp_all [NullEmpty]

theorem nullEmpty_enableMeasurement {s : State} (h : NullEmpty s) (measurementType : String) :
    NullEmpty (enableMeasurement measurementType s) := by
  unfold NullEmpty enableMeasurement
  split <;> intro hm <;> simp_all [NullEmpty]

theorem nullEmpty_addMarker {s : State} (h : NullEmpty s) (lat lng : Num)
    (popupText : Option String) : NullEmpty (addMarker lat lng popupText s).snd := by
  unfold NullEmpty addMarker
  split <;> intro hm <;> simp_all [NullEmpty]

theorem nullEmpty_addCircle {s : State} (h : NullEmpty s) (lat lng radius : Num)
    (options : GOpts) : NullEmpty (addCircle lat lng radius options s).snd := by
  unfold NullEmpty addCircle
  split <;> intro hm <;> simp_all [NullEmpty]

theorem nullEmpty_addPolygon {s : State} (h : NullEmpty s) (latLngs : List (Num × Num))
    (options : GOpts) : NullEmpty (addPolygon latLngs options s).snd := by
  unfold NullEmpty addPolygon
  split <;> intro hm <;> simp_all [NullEmpty]

theorem nullEmpty_addGeoJson {s : State} (h : NullEmpty s) (geoJson : List GFeature)
    (options : GOpts) : NullEmpty (addGeoJson geoJson options s).snd := by
  unfold NullEmpty addGeoJson
  split <;> intro hm <;> simp_all [NullEmpty]

theorem nullEmpty_addLayer {s : State} (h : NullEmpty s) (layerId : String)
    (layerData : Option (List GFeature)) (style : Option Opts) :
    NullEmpty (addLayer layerId layerData style s) := by
  unfold NullEmpty addLayer
  split
  · exact h
  · split <;> intro hm <;> simp_all [NullEmpty]

theorem nullEmpty_removeLayer {s s2 : State} (h : NullEmpty s) (layerId : String)
    (hok : removeLayer layerId s = Except.ok s2) : NullEmpty s2 := by
  unfold removeLayer at hok
  by_cases hl : (s.layers.lookup layerId).isSome
  · rw [if_pos hl] at hok
    cases hs : s.map with
    | none => rw [hs] at hok; cases hok
    | some m =>
      rw [hs] at hok
      intro hm
      cases hok
      simp_all
  · rw [if_neg hl] at hok
    cases hok
    exact h

theorem nullEmpty_setLayerOpacity {s : State} (h : NullEmpty s) (layerId : String)
    (opacity : Num) : NullEmpty (setLayerOpacity layerId opacity s) := by
  unfold NullEmpty setLayerOpacity
  split <;> intro hm <;> simp_all [NullEmpty]

theorem nullEmpty_clearMap {s : State} (h : NullEmpty s) : NullEmpty (clearMap s) := by
  unfold NullEmpty clearMap
  split <;> intro hm <;> simp_all [NullEmpty]

/-- In every reachable state, a null map handle means both dictionaries
are empty: every operation that populates them is guarded by the map
handle, and nothing ever nulls the handle once set. -/
theorem reachable_nullEmpty {s : State} (h : Reachable s) : NullEmpty s := by
  induction h with
  | init => exact nullEmpty_initial
  | createMap elementId lat lng zoom _ ih => exact nullEmpty_createMap elementId lat lng zoom
  | changeBaseMap mapType apiKey _ ih => exact nullEmpty_changeBaseMap ih mapType apiKey
  | addSatelliteLayer providerName apiKey _ ih =>
    exact nullEmpty_addSatelliteLayer ih providerName apiKey
  | removeSatelliteLayer _ ih => exact nullEmpty_removeSatelliteLayer ih
  | enableDrawingMode mode options _ ih => exact nullEmpty_enableDrawingMode ih mode options
  | disableDrawingMode _ ih => exact nullEmpty_disableDrawingMode ih
  | enableMeasurement measurementType _ ih => exact nullEmpty_enableMeasurement ih measurementType
  | addMarker lat lng popupText _ ih => exact nullEmpty_addMarker ih lat lng popupText
  | addCircle lat lng radius options _ ih => exact nullEmpty_addCircle ih lat lng radius options
  | addPolygon latLngs options _ ih => exact nullEmpty_addPolygon ih latLngs options
  | addGeoJson geoJson options _ ih => exact nullEmpty_addGeoJson ih geoJson options
  | addLayer layerId layerData style _ ih => exact nullEmpty_addLayer ih layerId layerData style
  | removeLayer layerId _ hok ih => exact nullEmpty_removeLayer ih layerId hok
  | setLayerOpacity layerId opacity _ ih => exact nullEmpty_setLayerOpacity ih layerId opacity
  | clearMap _ ih => exact nullEmpty_clearMap ih

/-- C9: in every reachable state of the GIS wrapper, `clearMap` followed
by `exportToGeoJson` with no layer identifier serializes a
FeatureCollection with an empty features array. -/
theorem clearMap_export_empty {s : State} (h : Reachable s) :
    exportToGeoJson none (clearMap s) = ExportResult.featureCollection [] := by
  cases hs : s.map with
  | some m =>
    simp [clearMap, hs, exportToGeoJson, exportAllLayers]
  | none =>
    have hempty := reachable_nullEmpty h hs
    simp [clearMap, hs, exportToGeoJson, exportAllLayers, hempty.1]

/-- Witness for C9 on a concrete reachable state: a created map with one
polygon layer added. -/
theorem clearMap_export_empty_witness :
    exportToGeoJson none
      (clearMap (addPolygon [(1, 2), (3, 4), (5, 6)] [] (createMap "m" 0 0 13 initialState)).snd)
      = ExportResult.featureCollection [] :=
  clearMap_export_empty
    (Reachable.addPolygon [(1, 2), (3, 4), (5, 6)] []
      (Reachable.createMap "m" 0 0 13 Reachable.init))

end GIS

namespace SpatialDashboard

/-!
The spatial-dashboard interop (src/unnamed/part_001): `spatialMap`,
`markers`, `polygons`.  Every public function wraps its body in
try/catch and returns a boolean, so each is modelled as a total function
from state to `Bool × State`; reaching the catch is the `false` result.
Whether an individual Leaflet library call throws is external to the
module (a missing container element, invalid bounds, bad path data), so
the functions take a `LeafletEnv` oracle saying which library calls
throw — input-dependent where the input matters — on top of the one
deterministic throw in the source, `spatialMap.removeLayer` on a null
map.  Circles and heat layers are added to the map but kept in no module
registry, exactly as in the source.
-/

structure SDMarker where
  lat : Num
  lng : Num
  title : String
  iconColor : String
deriving DecidableEq

structure SDPolygon where
  latLngs : List (Num × Num)
  color : String
  fillColor : String
  fillOpacity : Num
deriving DecidableEq

structure State where
  spatialMap : Option Nat
  markers : List SDMarker
  polygons : List SDPolygon
  nextId : Nat
deriving DecidableEq

def initialState : State :=
  { spatialMap := none, markers := [], polygons := [], nextId := 0 }

/-- Which Leaflet calls of part_001 throw: one field per call site, taking
the call's data where the throw can depend on it (`L.map` on the container
id, `fitBounds` on the bounds, the shape constructors on their inputs). -/
structure LeafletEnv where
  removeThrows : Bool
  removeLayerThrows : Bool
  tileLayerThrows : Bool
  mapInitThrows : String → Bool
  markerThrows : Num → Num → String → String → Bool
  polygonThrows : List (Num × Num) → Bool
  circleThrows : Num → Num → Num → Bool
  fitBoundsThrows : List (Num × Num) → Bool
  setViewThrows : Num → Num → Num → Bool
  heatThrows : List (Num × Num × Num) → Bool

/-- The environment in which no library call throws. -/
def noThrow : LeafletEnv where
  removeThrows := false
  removeLayerThrows := false
  tileLayerThrows := false
  mapInitThrows := fun _ => false
  markerThrows := fun _ _ _ _ => false
  polygonThrows := fun _ => false
  circleThrows := fun _ _ _ => false
  fitBoundsThrows := fun _ => false
  setViewThrows := fun _ _ _ => false
  heatThrows := fun _ => false

/-- `initializeLeafletMap` (lines 6-30).  The try body: remove an
existing map and reset both registries, build the fresh map
(`L.map(mapId).setView(...)`), add the tile layer, return true; a throw
anywhere is caught and returns false, with exactly the mutations made
before the throwing call (after a failed `L.map` the variable still
holds the stale removed handle). -/
def initializeLeafletMap (env : LeafletEnv) (mapId : String) (centerLat centerLng zoom : Num)
    (s : State) : Bool × State :=
  match s.spatialMap with
  | some _ =>
    if env.removeThrows then (false, s)
    else
      let s1 := { s with markers := [], polygons := [] }
      if env.mapInitThrows mapId then (false, s1)
      else
        let s2 := { s1 with spatialMap := some s1.nextId, nextId := s1.nextId + 1 }
        if env.tileLayerThrows then (false, s2) else (true, s2)
  | none =>
    if env.mapInitThrows mapId then (false, s)
    else
      let s2 := { s with spatialMap := some s.nextId, nextId := s.nextId + 1 }
      if env.tileLayerThrows then (false, s2) else (true, s2)

/-- `addLeafletMarker` (lines 32-60): false with a console error when the
map is uninitialized; a throw in the icon/marker construction is caught
before the push, so it returns false with no mutation. -/
def addLeafletMarker (env : LeafletEnv) (lat lng : Num) (title iconColor : String) (s : State) :
    Bool × State :=
  match s.spatialMap with
  | none => (false, s)
  | some _ =>
    if env.markerThrows lat lng title iconColor then (false, s)
    else (true, { s with markers := s.markers ++ [SDMarker.mk lat lng title iconColor] })

/-- `addLeafletPolygon` (lines 62-87). -/
def addLeafletPolygon (env : LeafletEnv) (paths : List (Num × Num)) (color fillColor : String)
    (fillOpacity : Num) (s : State) : Bool × State :=
  match s.spatialMap with
  | none => (false, s)
  | some _ =>
    if env.polygonThrows paths then (false, s)
    else
      (true, { s with polygons := s.polygons ++ [SDPolygon.mk paths color fillColor fillOpacity] })

/-- `addLeafletCircle` (lines 89-110): the circle is added to the map but
kept in no registry. -/
def addLeafletCircle (env : LeafletEnv) (lat lng radius : Num) (color title : String)
    (s : State) : Bool × State :=
  match s.spatialMap with
  | none => (false, s)
  | some _ =>
    if env.circleThrows lat lng radius then (false, s) else (true, s)

/-- `clearLeafletMarkers` (lines 112-121): no map-null check; with a null
map and a nonempty markers array, `spatialMap.removeLayer` throws on the
first marker (deterministically), and with a live map the library call
may throw; either catch returns false and the reassignment
`markers = []` is never reached. -/
def clearLeafletMarkers (env : LeafletEnv) (s : State) : Bool × State :=
  match s.spatialMap, s.markers with
  | none, _ :: _ => (false, s)
  | some _, _ :: _ =>
    if env.removeLayerThrows then (false, s) else (true, { s with markers := [] })
  | _, [] => (true, { s with markers := [] })

/-- `clearLeafletPolygons` (lines 123-132). -/
def clearLeafletPolygons (env : LeafletEnv) (s : State) : Bool × State :=
  match s.spatialMap, s.polygons with
  | none, _ :: _ => (false, s)
  | some _, _ :: _ =>
    if env.removeLayerThrows then (false, s) else (true, { s with polygons := [] })
  | _, [] => (true, { s with polygons := [] })

/-- `fitMapToBounds` (lines 134-148): `spatialMap.fitBounds(bounds)` can
throw (for example on empty or invalid bounds); the catch returns false. -/
def fitMapToBounds (env : LeafletEnv) (bounds : List (Num × Num)) (s : State) : Bool × State :=
  match s.spatialMap with
  | none => (false, s)
  | some _ =>
    if env.fitBoundsThrows bounds then (false, s) else (true, s)

/-- `setMapView` (lines 150-163). -/
def setMapView (env : LeafletEnv) (lat lng zoom : Num) (s : State) : Bool × State :=
  match s.spatialMap with
  | none => (false, s)
  | some _ =>
    if env.setViewThrows lat lng zoom then (false, s) else (true, s)

/-- `destroyLeafletMap` (lines 165-179): removes the map when present and
returns true; when `remove()` throws, the catch returns false before any
of the resets.  With no map the body does nothing and returns true. -/
def destroyLeafletMap (env : LeafletEnv) (s : State) : Bool × State :=
  match s.spatialMap with
  | some _ =>
    if env.removeThrows then (false, s)
    else (true, { s with spatialMap := none, markers := [], polygons := [] })
  | none => (true, s)

/-- `addLeafletHeatmap` (lines 182-206): false when the map is
uninitialized; with a map, the plugin check comes first (absence is a
warned false, no throw), then the `L.heatLayer(...)` call may throw. -/
def addLeafletHeatmap (env : LeafletEnv) (points : List (Num × Num × Num)) (options : Opts)
    (heatPluginLoaded : Bool) (s : State) : Bool × State :=
  match s.spatialMap with
  | none => (false, s)
  | some _ =>
    if heatPluginLoaded then
      if env.heatThrows points then (false, s) else (true, s)
    else (false, s)

theorem initializeLeafletMap_fst (env : LeafletEnv) (mapId : String)
    (centerLat centerLng zoom : Num) (s : State) :
    (initializeLeafletMap env mapId centerLat centerLng zoom s).fst = true ↔
      (env.mapInitThrows mapId = false ∧ env.tileLayerThrows = false ∧
        (s.spatialMap = none ∨ env.removeThrows = false)) := by
  cases hs : s.spatialMap <;>
    by_cases h1 : env.removeThrows <;>
      by_cases h2 : env.mapInitThrows mapId <;>
        by_cases h3 : env.tileLayerThrows <;>
          simp [initializeLeafletMap, hs, h1, h2, h3]

theorem addLeafletMarker_fst (env : LeafletEnv) (lat lng : Num) (title iconColor : String)
    (s : State) :
    (addLeafletMarker env lat lng title iconColor s).fst = true ↔
      (s.spatialMap ≠ none ∧ env.markerThrows lat lng title iconColor = false) := by
  cases hs : s.spatialMap <;>
    by_cases h1 : env.markerThrows lat lng title iconColor <;>
      simp [addLeafletMarker, hs, h1]

theorem addLeafletPolygon_fst (env : LeafletEnv) (paths : List (Num × Num))
    (color fillColor : String) (fillOpacity : Num) (s : State) :
    (addLeafletPolygon env paths color fillColor fillOpacity s).fst = true ↔
      (s.spatialMap ≠ none ∧ env.polygonThrows paths = false) := by
  cases hs : s.spatialMap <;>
    by_cases h1 : env.polygonThrows paths <;>
      simp [addLeafletPolygon, hs, h1]

theorem addLeafletCircle_fst (env : LeafletEnv) (lat lng radius : Num) (color title : String)
    (s : State) :
    (addLeafletCircle env lat lng radius color title s).fst = true ↔
      (s.spatialMap ≠ none ∧ env.circleThrows lat lng radius = false) := by
  cases hs : s.spatialMap <;>
    by_cases h1 : env.circleThrows lat lng radius <;>
      simp [addLeafletCircle, hs, h1]

theorem fitMapToBounds_fst (env : LeafletEnv) (bounds : List (Num × Num)) (s : State) :
    (fitMapToBounds env bounds s).fst = true ↔
      (s.spatialMap ≠ none ∧ env.fitBoundsThrows bounds = false) := by
  cases hs : s.spatialMap <;>
    by_cases h1 : env.fitBoundsThrows bounds <;>
      simp [fitMapToBounds, hs, h1]

theorem setMapView_fst (env : LeafletEnv) (lat lng zoom : Num) (s : State) :
    (setMapView env lat lng zoom s).fst = true ↔
      (s.spatialMap ≠ none ∧ env.setViewThrows lat lng zoom = false) := by
  cases hs : s.spatialMap <;>
    by_cases h1 : env.setViewThrows lat lng zoom <;>
      simp [setMapView, hs, h1]

theorem clearLeafletMarkers_fst (env : LeafletEnv) (s : State) :
    (clearLeafletMarkers env s).fst = true ↔
      (s.markers = [] ∨ (s.spatialMap ≠ none ∧ env.removeLayerThrows = false)) := by
  cases hs : s.spatialMap <;> cases hm : s.markers <;>
    by_cases h1 : env.removeLayerThrows <;>
      simp [clearLeafletMarkers, hs, hm, h1]

theorem clearLeafletPolygons_fst (env : LeafletEnv) (s : State) :
    (clearLeafletPolygons env s).fst = true ↔
      (s.polygons = [] ∨ (s.spatialMap ≠ none ∧ env.removeLayerThrows = false)) := by
  cases hs : s.spatialMap <;> cases hp : s.polygons <;>
    by_cases h1 : env.removeLayerThrows <;>
      simp [clearLeafletPolygons, hs, hp, h1]

theorem destroyLeafletMap_fst (env : LeafletEnv) (s : State) :
    (destroyLeafletMap env s).fst = true ↔
      (s.spatialMap = none ∨ env.removeThrows = false) := by
  cases hs : s.spatialMap <;>
    by_cases h1 : env.removeThrows <;>
      simp [destroyLeafletMap, hs, h1]

theorem addLeafletHeatmap_fst (env : LeafletEnv) (points : List (Num × Num × Num))
    (options : Opts) (heatPluginLoaded : Bool) (s : State) :
    (addLeafletHeatmap env points options heatPluginLoaded s).fst = true ↔
      (s.spatialMap ≠ none ∧ heatPluginLoaded = true ∧ env.heatThrows points = false) := by
  cases hs : s.spatialMap <;>
    cases hpl : heatPluginLoaded <;>
      by_cases h1 : env.heatThrows points <;>
        simp [addLeafletHeatmap, hs, hpl, h1]

end SpatialDashboard

/-- C10 counterexample: `destroyLeafletMap` called while the map is
uninitialized returns true, not false — against the claim that every
listed function returns false when the map is uninitialized.  (The same
holds for the two clear functions on their initial empty registries.)
The calls run in the environment in which no library call throws, so no
internal error is caught either. -/
theorem sd_uninitialized_true_counterexample :
    SpatialDashboard.initialState.spatialMap = none ∧
    (SpatialDashboard.destroyLeafletMap SpatialDashboard.noThrow
      SpatialDashboard.initialState).fst = true ∧
    (SpatialDashboard.clearLeafletMarkers SpatialDashboard.noThrow
      SpatialDashboard.initialState).fst = true :=
  ⟨rfl, rfl, rfl⟩

/-- C10 amended: every public function of the spatial-dashboard wrapper
is total, returns a boolean, and never propagates an exception; each
returns true on success and false both when the map is uninitialized
(for the functions that check it) and when any internal error is caught
— with the exceptions the counterexample forces: `initializeLeafletMap`
succeeds or fails solely by its own library calls, `destroyLeafletMap`
returns true when the map is uninitialized (its null-check skips the
removal), and the two clear functions return true when the map is
uninitialized but their registry is empty (the clearing loop runs over
nothing).  Stated as exact true-iff-success characterizations over every
state and every throw environment, plus the no-op equations for the
uninitialized and caught-error cases. -/
theorem sd_total_boolean (env : SpatialDashboard.LeafletEnv) (s : SpatialDashboard.State)
    (mapId title iconColor color fillColor : String)
    (lat lng zoom radius fillOpacity : Num) (paths bounds : List (Num × Num))
    (points : List (Num × Num × Num)) (options : Opts) (heat : Bool) :
    ((SpatialDashboard.initializeLeafletMap env mapId lat lng zoom s).fst = true ↔
      (env.mapInitThrows mapId = false ∧ env.tileLayerThrows = false ∧
        (s.spatialMap = none ∨ env.removeThrows = false))) ∧
    ((SpatialDashboard.addLeafletMarker env lat lng title iconColor s).fst = true ↔
      (s.spatialMap ≠ none ∧ env.markerThrows lat lng title iconColor = false)) ∧
    ((SpatialDashboard.addLeafletPolygon env paths color fillColor fillOpacity s).fst = true ↔
      (s.spatialMap ≠ none ∧ env.polygonThrows paths = false)) ∧
    ((SpatialDashboard.addLeafletCircle env lat lng radius color title s).fst = true ↔
      (s.spatialMap ≠ none ∧ env.circleThrows lat lng radius = false)) ∧
    ((SpatialDashboard.fitMapToBounds env bounds s).fst = true ↔
      (s.spatialMap ≠ none ∧ env.fitBoundsThrows bounds = false)) ∧
    ((SpatialDashboard.setMapView env lat lng zoom s).fst = true ↔
      (s.spatialMap ≠ none ∧ env.setViewThrows lat lng zoom = false)) ∧
    ((SpatialDashboard.clearLeafletMarkers env s).fst = true ↔
      (s.markers = [] ∨ (s.spatialMap ≠ none ∧ env.removeLayerThrows = false))) ∧
    ((SpatialDashboard.clearLeafletPolygons env s).fst = true ↔
      (s.polygons = [] ∨ (s.spatialMap ≠ none ∧ env.removeLayerThrows = false))) ∧
    ((SpatialDashboard.destroyLeafletMap env s).fst = true ↔
      (s.spatialMap = none ∨ env.removeThrows = false)) ∧
    ((SpatialDashboard.addLeafletHeatmap env points options heat s).fst = true ↔
      (s.spatialMap ≠ none ∧ heat = true ∧ env.heatThrows points = false)) ∧
    (s.spatialMap = none →
      SpatialDashboard.addLeafletMarker env lat lng title iconColor s = (false, s) ∧
      SpatialDashboard.addLeafletPolygon env paths color fillColor fillOpacity s = (false, s) ∧
      SpatialDashboard.addLeafletCircle env lat lng radius color title s = (false, s) ∧
      SpatialDashboard.fitMapToBounds env bounds s = (false, s) ∧
      SpatialDashboard.setMapView env lat lng zoom s = (false, s) ∧
      SpatialDashboard.addLeafletHeatmap env points options heat s = (false, s) ∧
      SpatialDashboard.destroyLeafletMap env s = (true, s)) ∧
    (∀ m, s.spatialMap = some m →
      (env.markerThrows lat lng title iconColor = true →
        SpatialDashboard.addLeafletMarker env lat lng title iconColor s = (false, s)) ∧
      (env.polygonThrows paths = true →
        SpatialDashboard.addLeafletPolygon env paths color fillColor fillOpacity s = (false, s)) ∧
      (env.fitBoundsThrows bounds = true →
        SpatialDashboard.fitMapToBounds env bounds s = (false, s)) ∧
      (env.removeThrows = true →
        SpatialDashboard.destroyLeafletMap env s = (false, s))) := by
  refine ⟨SpatialDashboard.initializeLeafletMap_fst env mapId lat lng zoom s,
    SpatialDashboard.addLeafletMarker_fst env lat lng title iconColor s,
    SpatialDashboard.addLeafletPolygon_fst env paths color fillColor fillOpacity s,
    SpatialDashboard.addLeafletCircle_fst env lat lng radius color title s,
    SpatialDashboard.fitMapToBounds_fst env bounds s,
    SpatialDashboard.setMapView_fst env lat lng zoom s,
    SpatialDashboard.clearLeafletMarkers_fst env s,
    SpatialDashboard.clearLeafletPolygons_fst env s,
    SpatialDashboard.destroyLeafletMap_fst env s,
    SpatialDashboard.addLeafletHeatmap_fst env points options heat s,
    fun hs => ?_, fun m hm => ?_⟩
  · exact ⟨by simp [SpatialDashboard.addLeafletMarker, hs],
      by simp [SpatialDashboard.addLeafletPolygon, hs],
      by simp [SpatialDashboard.addLeafletCircle, hs],
      by simp [SpatialDashboard.fitMapToBounds, hs],
      by simp [SpatialDashboard.setMapView, hs],
      by simp [SpatialDashboard.addLeafletHeatmap, hs],
      by simp [SpatialDashboard.destroyLeafletMap, hs]⟩
  · exact ⟨fun h1 => by simp [SpatialDashboard.addLeafletMarker, hm, h1],
      fun h1 => by simp [SpatialDashboard.addLeafletPolygon, hm, h1],
      fun h1 => by simp [SpatialDashboard.fitMapToBounds, hm, h1],
      fun h1 => by simp [SpatialDashboard.destroyLeafletMap, hm, h1]⟩

/-- A dashboard state with a live map, as left by a first initialize in
the non-throwing environment. -/
def sdStateWithMap : SpatialDashboard.State :=
  (SpatialDashboard.initializeLeafletMap SpatialDashboard.noThrow "m" 0 0 10
    SpatialDashboard.initialState).snd

/-- The environment in which only the marker construction throws. -/
def markerFailEnv : SpatialDashboard.LeafletEnv :=
  { SpatialDashboard.noThrow with markerThrows := fun _ _ _ _ => true }

/-- Witness for C10 (amended): at the initial state the add is a false
no-op; with a live map the add succeeds in the non-throwing environment
and is a caught false no-op in the marker-throwing one. -/
theorem sd_total_boolean_witness :
    SpatialDashboard.addLeafletMarker SpatialDashboard.noThrow 1 2 "t" "blue"
        SpatialDashboard.initialState = (false, SpatialDashboard.initialState) ∧
    (SpatialDashboard.addLeafletMarker SpatialDashboard.noThrow 1 2 "t" "blue"
        sdStateWithMap).fst = true ∧
    SpatialDashboard.addLeafletMarker markerFailEnv 1 2 "t" "blue" sdStateWithMap
      = (false, sdStateWithMap) :=
  ⟨((sd_total_boolean SpatialDashboard.noThrow SpatialDashboard.initialState "m" "t" "blue"
      "c" "f" 1 2 10 5 1 [] [] [] [] true).2.2.2.2.2.2.2.2.2.2.1 rfl).1,
   (sd_total_boolean SpatialDashboard.noThrow sdStateWithMap "m" "t" "blue"
      "c" "f" 1 2 10 5 1 [] [] [] [] true).2.1.mpr ⟨by decide, rfl⟩,
   ((sd_total_boolean markerFailEnv sdStateWithMap "m" "t" "blue"
      "c" "f" 1 2 10 5 1 [] [] [] [] true).2.2.2.2.2.2.2.2.2.2.2 0 (by decide)).1 rfl⟩

end CouncilApp
